import Mathlib

/-!
Verification development for the AegisX-S verification service
(src/detection.py, src/web.py, src/bot.py, src/db.py).

Modelling conventions:
* Python floats are modelled by exact rationals (ℚ) for data that stays
  rational, and by ℝ where the code takes square roots (vector norms).
* Numeric vectors (typing/mouse DNA) are `List ℚ`.
* `numpy.dot` raises a ValueError on two nonempty 1-D arrays of different
  lengths; a raised exception is modelled by `Option.none` propagating
  outward (the bot catches it in its outer try/except).
* Python dict truthiness (empty dict / `None` / `0` / `""` are falsy) is
  modelled with `Option` for dicts and explicit `≠ 0` / `≠ ""` tests.
* The wall clock (`time.time()`) is passed explicitly as a `now` argument.
* Side effects of the bot (DB writes, role mutations, log messages) are
  reified as an ordered `List Effect`; `applyTrace` replays the DB writes
  onto a `Db` value, while role/log effects leave the store unchanged.
-/

namespace AegisX

/-- Python `round()` to an integer: round half to even (banker's rounding),
as applied by `int(round(score))` in detection.py. -/
def pyRound (q : ℚ) : ℤ :=
  if q - ⌊q⌋ = 1 / 2 then (if ⌊q⌋ % 2 = 0 then ⌊q⌋ else ⌊q⌋ + 1) else round q

open Classical in
/-- Python `round()` (half to even) on a real argument, used for
`round(sim, 3)` and string formatting of similarity values. -/
noncomputable def pyRoundR (x : ℝ) : ℤ :=
  if x - ⌊x⌋ = 1 / 2 then (if ⌊x⌋ % 2 = 0 then ⌊x⌋ else ⌊x⌋ + 1) else round x

/-- Python `round(x, 3)`: round to three decimal places. -/
noncomputable def round3 (x : ℝ) : ℝ := (pyRoundR (x * 1000) : ℝ) / 1000

/-- Rendering of Python format `{v:.0f}`. -/
def fmt0 (q : ℚ) : String := toString (pyRound q)

/-- Rendering of Python format `{v:.1f}` (nonnegative arguments). -/
def fmt1 (q : ℚ) : String :=
  let n := pyRound (q * 10)
  toString (n / 10) ++ "." ++ toString (n % 10)

/-- Rendering of Python format `{v:.2f}` on a real value (nonnegative). -/
noncomputable def fmt2R (x : ℝ) : String :=
  let n := pyRoundR (x * 100)
  toString (n / 100) ++ "." ++ (if n % 100 < 10 then "0" else "") ++ toString (n % 100)

/-- Rendering of a rational the way Python prints the plain numbers
appearing in reason strings. -/
def qStr (q : ℚ) : String :=
  if q.den = 1 then toString q.num else toString q.num ++ "/" ++ toString q.den

/-- Sum of squares of a vector; `np.linalg.norm a = Real.sqrt (sumSq a)`. -/
def sumSq (l : List ℚ) : ℚ := (l.map (fun x => x * x)).sum

/-- `np.dot` on two equal-length 1-D arrays (the only case where it
returns instead of raising). -/
def dotp (a b : List ℚ) : ℚ := (List.zipWith (fun x y => x * y) a b).sum

open Classical in
/-- detection.cosine: returns 0 on an empty operand, 0 when the product of
norms is 0, and otherwise `dot(a,b) / (norm a * norm b)`.  `none` models
the ValueError `np.dot` raises on nonempty vectors of different lengths
(the norms and the zero-denominator test happen before `np.dot`). -/
noncomputable def cosine (a b : List ℚ) : Option ℝ :=
  if a.length = 0 ∨ b.length = 0 then some 0
  else
    let denom : ℝ := Real.sqrt ((sumSq a : ℚ) : ℝ) * Real.sqrt ((sumSq b : ℚ) : ℝ)
    if denom = 0 then some 0
    else if a.length = b.length then some (((dotp a b : ℚ) : ℝ) / denom) else none

/-- A behavioral-DNA payload: `{'typing': [...], 'mouse': [...]}` with
missing keys defaulting to the empty list. -/
structure Dna where
  typing : List ℚ
  mouse : List ℚ
deriving DecidableEq

/-- detection.dna_similarity: `0.6 * cosine(typingA, typingB) + 0.4 *
cosine(mouseA, mouseB)`; an exception from either cosine propagates. -/
noncomputable def dna_similarity (pa pb : Dna) : Option ℝ :=
  match cosine pa.typing pb.typing with
  | none => none
  | some t =>
    match cosine pa.mouse pb.mouse with
    | none => none
    | some m => some (0.6 * t + 0.4 * m)

/-- IP-intelligence result dict; `none` in an `Option IpInfo` models an
absent or empty (falsy) dict. -/
structure IpInfo where
  is_datacenter : Bool
  is_vpn : Bool
  is_tor : Bool
  proxy_score : ℚ
  asn : Option String
deriving DecidableEq

/-- The optional `social_scores` dict. -/
structure Social where
  is_isolated : Bool
deriving DecidableEq

/-- The optional `db_stats` dict computed by the bot. -/
structure DbStats where
  same_ip_count : ℕ
  same_fp_count : ℕ
  previously_banned_count : ℕ
deriving DecidableEq

/-- A stored DNA profile row: `{'discord_id', 'typing', 'mouse'}`. -/
structure Profile where
  discord_id : String
  typing : List ℚ
  mouse : List ℚ
deriving DecidableEq

/-- An element of `fp_rows` as assembled in bot.process_verification_token:
the parsed fingerprint payload plus DB columns.  `fp` carries the
serialized fingerprint value used for duplicate matching. -/
structure FpObj where
  fp : String
  ip : String
  asn : Option String
  ua : String
  honeypot : Bool
  dna : Option Dna
  ip_info : Option IpInfo
deriving DecidableEq

/-- The dict returned by detection.compute_risk. -/
structure RiskResult where
  risk_score : ℤ
  reasons : List String
  dna_matches : List (String × ℝ)
  computed_at : ℤ

def W_DUP_FP : ℚ := 25
def W_DUP_IP : ℚ := 20
def W_ASN_DATACENTER : ℚ := 25
def W_VPN : ℚ := 35
def W_TOR : ℚ := 40
def W_PROXY_SCORE_FACTOR : ℚ := 1 / 2
def W_HONEYPOT : ℚ := 90
def W_ACCOUNT_AGE : ℚ := 20
def W_DNA_MATCH : ℚ := 35
def W_PREVIOUS_BANS : ℚ := 25
def W_SOCIAL_ISOLATION : ℚ := 8

/-- The DNA comparison loop of compute_risk: walks the known profiles,
accumulating (score, reasons, dna_matches); a ValueError raised by
`np.dot` inside `dna_similarity` aborts the whole computation (`none`). -/
noncomputable def dnaFold (cur : Dna) :
    List Profile → ℚ × List String × List (String × ℝ) →
    Option (ℚ × List String × List (String × ℝ))
  | [], acc => some acc
  | prof :: rest, (s, rs, ms) =>
    match dna_similarity cur ⟨prof.typing, prof.mouse⟩ with
    | none => none
    | some sim =>
      if sim > 0.78 then
        dnaFold cur rest
          (s + W_DNA_MATCH,
           rs ++ ["DNA match to " ++ prof.discord_id ++ " sim=" ++ fmt2R sim ++ " (+35.0)"],
           ms ++ [(prof.discord_id, round3 sim)])
      else dnaFold cur rest (s, rs, ms)

/-- `final = max(0, min(100, int(round(score))))` plus assembly of the
returned dict. -/
def finalizeRisk (s : ℚ) (rs : List String) (ms : List (String × ℝ)) (now : ℤ) : RiskResult :=
  ⟨max 0 (min 100 (pyRound s)), rs, ms, now⟩

/-- The db_stats section of compute_risk: duplicate-fingerprint,
duplicate-IP and prior-ban signals with their reason strings (a falsy —
absent — dict contributes nothing, and each `.get(..., 0) > 0` guard skips
its signal at count 0). -/
def riskStatsStage (db_stats : Option DbStats) : ℚ × List String :=
  match db_stats with
  | none => (0, [])
  | some st =>
    let sra : ℚ × List String :=
      if 0 < st.same_fp_count then
        let add : ℚ := W_DUP_FP * (min 3 st.same_fp_count : ℕ)
        (add, ["Duplicate fingerprint matches " ++ toString st.same_fp_count ++
               " (+" ++ fmt0 add ++ ")"])
      else (0, [])
    let srb : ℚ × List String :=
      if 0 < st.same_ip_count then
        let add : ℚ := W_DUP_IP * (((min 4 st.same_ip_count : ℕ) : ℚ) / 2)
        (sra.1 + add,
         sra.2 ++ ["Same IP seen across " ++ toString st.same_ip_count ++
                   " accounts (+" ++ fmt0 add ++ ")"])
      else sra
    if 0 < st.previously_banned_count then
      let add : ℚ := min W_PREVIOUS_BANS ((st.previously_banned_count : ℚ) * 10)
      (srb.1 + add,
       srb.2 ++ ["Previously banned accounts on same device/IP (+" ++ fmt0 add ++ ")"])
    else srb

/-- The ip_info flag section of compute_risk (datacenter, vpn, tor, then
the numeric proxy score; a proxy score of 0 is falsy and skipped). -/
def riskIpStage (prev : ℚ × List String) (ip_info : Option IpInfo) : ℚ × List String :=
  match ip_info with
  | none => prev
  | some info =>
    let sra :=
      if info.is_datacenter then
        (prev.1 + W_ASN_DATACENTER, prev.2 ++ ["Datacenter ASN detected (+25.0)"])
      else prev
    let srb :=
      if info.is_vpn then (sra.1 + W_VPN, sra.2 ++ ["VPN/proxy likely (+35.0)"]) else sra
    let src :=
      if info.is_tor then (srb.1 + W_TOR, srb.2 ++ ["Tor exit node detected (+40.0)"]) else srb
    if info.proxy_score ≠ 0 then
      let add : ℚ := info.proxy_score * W_PROXY_SCORE_FACTOR
      (src.1 + add,
       src.2 ++ ["Proxy score " ++ qStr info.proxy_score ++ " (+" ++ fmt1 add ++ ")"])
    else src

/-- The honeypot section of compute_risk. -/
def riskHoneypotStage (prev : ℚ × List String) (honeypot_triggered : Bool) : ℚ × List String :=
  if honeypot_triggered then (prev.1 + W_HONEYPOT, prev.2 ++ ["Honeypot triggered (+90.0)"])
  else prev

/-- The account-age section of compute_risk. -/
def riskAgeStage (prev : ℚ × List String) (account_age_days : ℤ) : ℚ × List String :=
  if account_age_days < 1 then (prev.1 + W_ACCOUNT_AGE, prev.2 ++ ["New account (<1d) (+20.0)"])
  else if account_age_days < 7 then
    (prev.1 + W_ACCOUNT_AGE * (3 / 5), prev.2 ++ ["New account (<7d) (+12)"])
  else prev

/-- The social-isolation section of compute_risk. -/
def riskSocialStage (prev : ℚ × List String) (social_scores : Option Social) : ℚ × List String :=
  match social_scores with
  | none => prev
  | some soc =>
    if soc.is_isolated then (prev.1 + W_SOCIAL_ISOLATION, prev.2 ++ ["No social links (+8.0)"])
    else (prev.1, prev.2 ++ ["Social links present (-8)"])

/-- `current_profile = fp_rows[0].get('dna')` when fp_rows is nonempty
(`none` also covers a falsy empty dna dict). -/
def currentProfileOf (fp_rows : List FpObj) : Option Dna :=
  match fp_rows with
  | [] => none
  | row :: _ => row.dna

/-- The accumulation phase of detection.compute_risk: the weighted sum,
the ordered reason strings and the dna_matches list, before the final
round-and-clamp; `none` models the ValueError escaping when DNA vectors of
different nonzero lengths are compared.  The DNA loop only runs when both
the current profile and the known-profiles list are truthy. -/
noncomputable def compute_riskCore (fp_rows : List FpObj) (known_dna_profiles : List Profile)
    (ip_info : Option IpInfo) (honeypot_triggered : Bool) (account_age_days : ℤ)
    (social_scores : Option Social) (db_stats : Option DbStats) :
    Option (ℚ × List String × List (String × ℝ)) :=
  let sr4 : ℚ × List String :=
    riskAgeStage
      (riskHoneypotStage (riskIpStage (riskStatsStage db_stats) ip_info) honeypot_triggered)
      account_age_days
  match (match currentProfileOf fp_rows, known_dna_profiles with
         | some cur, _ :: _ => dnaFold cur known_dna_profiles (sr4.1, sr4.2, [])
         | _, _ => some (sr4.1, sr4.2, [])) with
  | none => none
  | some (s5, r5, ms) =>
    let sr6 : ℚ × List String := riskSocialStage (s5, r5) social_scores
    some (sr6.1, sr6.2, ms)

/-- detection.compute_risk: the accumulation phase followed by
`final = max(0, min(100, int(round(score))))` and dict assembly.  `now`
models the `int(time.time())` read for `computed_at`. -/
noncomputable def compute_risk (fp_rows : List FpObj) (known_dna_profiles : List Profile)
    (ip_info : Option IpInfo) (honeypot_triggered : Bool) (account_age_days : ℤ)
    (social_scores : Option Social) (db_stats : Option DbStats) (now : ℤ) :
    Option RiskResult :=
  (compute_riskCore fp_rows known_dna_profiles ip_info honeypot_triggered account_age_days
      social_scores db_stats).map (fun x => finalizeRisk x.1 x.2.1 x.2.2 now)

/-! ### The web server token validation (web.check_token_valid) -/

/-- A row of the `verifications` table,
`(discord_id, token, status, used, created_at, expires_at)`. -/
structure Verification where
  token : String
  discord_id : String
  status : String
  used : Bool
  created_at : ℤ
  expires_at : Option ℤ
deriving DecidableEq

/-- web.check_token_valid: absent token, then `used`, then expiry.  The
Python guard `if expires_at and ts > expires_at` treats both a NULL and a
zero `expires_at` as never-expiring (0 is falsy). -/
def check_token_valid (v : Option Verification) (now : ℤ) : Bool × String :=
  match v with
  | none => (false, "token not found")
  | some v =>
    if v.used then (false, "token already used")
    else
      match v.expires_at with
      | none => (true, "")
      | some e => if e ≠ 0 ∧ now > e then (false, "token expired") else (true, "")

/-! ### The bot store, effects and decision processor (bot.py, db.py) -/

/-- The parsed content of a fingerprint row's `fp` JSON column:
`{'fp': ..., 'dna': ..., 'ip_info': ...}`.  `fpVal` is the serialized form
of the inner fingerprint value (`json.dumps`/`str` of `parsed['fp']`, or of
the whole payload when that key is falsy) used for duplicate matching. -/
structure Payload where
  fpVal : String
  dna : Option Dna
  ip_info : Option IpInfo
deriving DecidableEq

/-- A row of the `fingerprints` table together with its parsed payload.
Rows for a token are kept newest-first, matching
`ORDER BY created_at DESC`. -/
structure FpRow where
  token : String
  fpStored : String
  payload : Payload
  ip : String
  asn : String
  ua : String
  honeypot : Bool
  created_at : ℤ
deriving DecidableEq

/-- A row of the `actions` audit table. -/
structure ActionRow where
  discord_id : String
  action : String
  reason : String
deriving DecidableEq

/-- The durable store (aegisx_s.db). -/
structure Db where
  verifications : List Verification
  fingerprints : List FpRow
  actions : List ActionRow
  profiles : List Profile
  quarantined : List (String × ℤ)
deriving DecidableEq

/-- db.get_verification: the row whose token matches. -/
def get_verification (db : Db) (token : String) : Option Verification :=
  db.verifications.find? (fun v => v.token == token)

/-- db.fetch_fingerprints_by_token (rows kept newest-first). -/
def fetch_fingerprints_by_token (db : Db) (token : String) : List FpRow :=
  db.fingerprints.filter (fun r => r.token == token)

/-- Assembly of one `fp_obj` dict inside process_verification_token;
`r[4] or ip_info_stored.get('asn')` falls back when the column is empty. -/
def toFpObj (r : FpRow) : FpObj :=
  { fp := r.payload.fpVal
    ip := r.ip
    asn := if r.asn ≠ "" then some r.asn else r.payload.ip_info.bind (fun i => i.asn)
    ua := r.ua
    honeypot := r.honeypot
    dna := r.payload.dna
    ip_info := r.payload.ip_info }

/-- Whether the first list occurs at the head of the second. -/
def segStarts : List Char → List Char → Bool
  | [], _ => true
  | _ :: _, [] => false
  | a :: as, b :: bs => a == b && segStarts as bs

/-- Whether the first list occurs contiguously anywhere in the second
(SQL `LIKE concat percent x percent` on plain text). -/
def segIn : List Char → List Char → Bool
  | p, [] => segStarts p []
  | p, c :: t => segStarts p (c :: t) || segIn p t

/-- Substring test used for the loose prior-ban heuristic. -/
def containsStr (hay needle : String) : Bool := segIn needle.data hay.data

/-- `COUNT(DISTINCT token)` over a filtered row set. -/
def distinctTokenCount (rows : List FpRow) : ℕ :=
  ((rows.map (fun r => r.token)).dedup).length

/-- The `db_stats` computed in process_verification_token from the current
fingerprint: distinct other tokens on the same IP, distinct other tokens
with an identical stored fingerprint text, and ban actions whose reason
contains the IP or fingerprint value as a substring.  Empty strings are
falsy, skipping the corresponding query. -/
def dbStatsOf (db : Db) (token : String) (fp_rows : List FpObj) : DbStats :=
  match fp_rows with
  | [] => ⟨0, 0, 0⟩
  | cur :: _ =>
    let ip_val := cur.ip
    let fp_val := cur.fp
    let same_ip :=
      if ip_val ≠ "" then
        distinctTokenCount (db.fingerprints.filter (fun r => r.ip == ip_val && r.token != token))
      else 0
    let same_fp :=
      if fp_val ≠ "" then
        distinctTokenCount
          (db.fingerprints.filter (fun r => r.fpStored == fp_val && r.token != token))
      else 0
    let bans :=
      if ip_val ≠ "" ∨ fp_val ≠ "" then
        (db.actions.filter (fun a =>
          a.action == "ban" && (containsStr a.reason ip_val || containsStr a.reason fp_val))).length
      else 0
    ⟨same_ip, same_fp, bans⟩

/-- The neutral IP-intelligence fallback dict. -/
def neutralIpInfo : IpInfo := ⟨false, false, false, 0, none⟩

/-- A resolved guild member (id plus account age in days). -/
structure Member where
  id : String
  age_days : ℤ
deriving DecidableEq

/-- The guild context: resolved member and whether the two role objects
resolve. -/
structure Guild where
  member : Option Member
  vrole : Bool
  qrole : Bool
deriving DecidableEq

/-- Bot configuration from the environment. -/
structure Cfg where
  threshold : ℤ
  hours : ℤ
  auto_ban : Bool
deriving DecidableEq

def QUARANTINE_THRESHOLD : ℤ := 60
def QUARANTINE_HOURS : ℤ := 24
def defaultCfg : Cfg := ⟨QUARANTINE_THRESHOLD, QUARANTINE_HOURS, false⟩

/-- The ordered side effects of the decision processor: DB writes plus
platform role mutations and operator log messages. -/
inductive Effect where
  | markTokenUsed (token : String)
  | setStatus (token status : String)
  | addAction (discord_id action reason : String)
  | insertQuarantine (discord_id : String) (until_ts : ℤ)
  | saveDnaProfile (discord_id : String) (typing mouse : List ℚ)
  | addRole (discord_id role : String)
  | banMember (discord_id : String)
  | modLog (text : String)
deriving DecidableEq

/-- Replay of one effect onto the store.  `markTokenUsed` is
db.mark_token_used, `setStatus` is db.set_verification_status, `addAction`
is db.add_action, `insertQuarantine` is db.quarantine_member,
`saveDnaProfile` is db.save_dna_profile; role/ban/log effects do not touch
the store. -/
def applyEffect (db : Db) : Effect → Db
  | .markTokenUsed t =>
    { db with verifications :=
        db.verifications.map (fun v => if v.token == t then { v with used := true } else v) }
  | .setStatus t s =>
    { db with verifications :=
        db.verifications.map (fun v => if v.token == t then { v with status := s } else v) }
  | .addAction id a r => { db with actions := db.actions ++ [⟨id, a, r⟩] }
  | .insertQuarantine id ts => { db with quarantined := db.quarantined ++ [(id, ts)] }
  | .saveDnaProfile id t m => { db with profiles := db.profiles ++ [⟨id, t, m⟩] }
  | .addRole _ _ => db
  | .banMember _ => db
  | .modLog _ => db

/-- Replay of a whole trace, in order. -/
def applyTrace (db : Db) (es : List Effect) : Db := es.foldl applyEffect db

/-- The bot-side expiry test `if expires_at and now_ts > expires_at`
(Python truthiness: NULL or 0 both skip the check). -/
def tokenExpiredNow (v : Verification) (now : ℤ) : Bool :=
  match v.expires_at with
  | none => false
  | some e => if e ≠ 0 ∧ now > e then true else false

/-- The fp_rows list for a token, as dicts. -/
def fpObjsOf (db : Db) (token : String) : List FpObj :=
  (fetch_fingerprints_by_token db token).map toFpObj

/-- The risk computation performed inside process_verification_token:
db_stats from the store, stored ip_info of the newest row (else neutral),
honeypot if any row triggered it, account age from the resolved member
(9999 when the member is absent), social_scores=None. -/
noncomputable def processRisk (db : Db) (token : String) (g : Guild) (now : ℤ) :
    Option RiskResult :=
  let fp_rows := fpObjsOf db token
  let stats := dbStatsOf db token fp_rows
  let ip_info : IpInfo :=
    match fp_rows with
    | row :: _ =>
      match row.ip_info with
      | some i => i
      | none => neutralIpInfo
    | [] => neutralIpInfo
  let honeypot := fp_rows.any (fun r => r.honeypot)
  let account_age_days : ℤ :=
    match g.member with
    | some m => max 0 m.age_days
    | none => 9999
  compute_risk fp_rows db.profiles (some ip_info) honeypot account_age_days none (some stats) now

/-- The decision branch of process_verification_token, entered after the
token is marked used and the member is resolved: quarantine at or above
the threshold (with optional auto-ban at 95+), otherwise the verified path
(role, status, audit, first-writer-wins DNA profile). -/
def decisionEffects (cfg : Cfg) (g : Guild) (m : Member) (token : String)
    (score : ℤ) (reasons : List String) (fp_rows : List FpObj) (known : List Profile)
    (now : ℤ) : List Effect :=
  if cfg.threshold ≤ score then
    (if g.qrole then [Effect.addRole m.id "quarantine"] else []) ++
    [Effect.insertQuarantine m.id (now + cfg.hours * 3600),
     Effect.addAction m.id "quarantine_auto"
       ("score=" ++ toString score ++ ";reasons=" ++ toString reasons),
     Effect.modLog ("auto-quarantined " ++ m.id ++ " score=" ++ toString score)] ++
    (if cfg.auto_ban ∧ 95 ≤ score then
       [Effect.banMember m.id,
        Effect.addAction m.id "ban" ("auto-ban score=" ++ toString score),
        Effect.modLog ("auto-banned " ++ m.id)]
     else [])
  else
    (if g.vrole then [Effect.addRole m.id "verified"] else []) ++
    [Effect.setStatus token "verified",
     Effect.addAction m.id "verified"
       ("score=" ++ toString score ++ ";reasons=" ++ toString reasons),
     Effect.modLog ("verified " ++ m.id)] ++
    (match (if known.any (fun p => p.discord_id == m.id) then none
            else match fp_rows with
                 | row :: _ => row.dna
                 | [] => none) with
     | some d => [Effect.saveDnaProfile m.id d.typing d.mouse]
     | none => [])

/-- bot.process_verification_token as an effect-trace function: absent
token does nothing; expiry is checked before reuse; a valid token is
marked used before any decision side effect; a missing guild or an
exception from compute_risk aborts with no effects. -/
noncomputable def process_verification_token (db : Db) (token : String)
    (guild : Option Guild) (now : ℤ) (cfg : Cfg) : List Effect :=
  match get_verification db token with
  | none => []
  | some v =>
    if tokenExpiredNow v now then [Effect.addAction v.discord_id "token_expired" token]
    else if v.used then [Effect.addAction v.discord_id "token_reuse" token]
    else
      match guild with
      | none => []
      | some g =>
        match processRisk db token g now with
        | none => []
        | some risk =>
          Effect.markTokenUsed token ::
          (match g.member with
           | none =>
             [Effect.addAction v.discord_id "verify_no_member"
                ("token=" ++ token ++ ";score=" ++ toString risk.risk_score),
              Effect.modLog ("member not found for " ++ v.discord_id)]
           | some m =>
             decisionEffects cfg g m token risk.risk_score risk.reasons
               (fpObjsOf db token) db.profiles now)

/-! ### The join-surge detector (bot.surge_check) -/

/-- Process-wide surge state: the `recent_joins` list of join timestamps
and the `surge_mode` flag. -/
structure SurgeState where
  recent_joins : List ℚ
  surge_mode : Bool
deriving DecidableEq

/-- Operator notifications emitted by the detector. -/
inductive SurgeNotif where
  | surgeOn
  | surgeOff
deriving DecidableEq

/-- The eviction loop `while recent_joins and recent_joins[0] < now - 30`. -/
def evictJoins (now : ℚ) (l : List ℚ) : List ℚ :=
  l.dropWhile (fun t => t < now - 30)

/-- One tick of bot.surge_check: evict, then enter surge mode (with one
notification) when the window holds at least 3 joins and the mode is off,
else leave surge mode (with one notification) when the window is empty and
the mode is on. -/
def surge_check (s : SurgeState) (now : ℚ) : SurgeState × Option SurgeNotif :=
  let js := evictJoins now s.recent_joins
  if 3 ≤ js.length ∧ s.surge_mode = false then (⟨js, true⟩, some .surgeOn)
  else if js.length = 0 ∧ s.surge_mode = true then (⟨js, false⟩, some .surgeOff)
  else (⟨js, s.surge_mode⟩, none)

/-- bot.on_member_join appends the join time; it never notifies. -/
def onJoin (s : SurgeState) (t : ℚ) : SurgeState :=
  ⟨s.recent_joins ++ [t], s.surge_mode⟩

/-- An interleaving of join events and detector ticks. -/
inductive SurgeEvent where
  | join (t : ℚ)
  | tick (now : ℚ)

/-- A run of the detector over an event sequence, collecting the emitted
notifications in order. -/
def surgeRun : SurgeState → List SurgeEvent → SurgeState × List SurgeNotif
  | s, [] => (s, [])
  | s, .join t :: rest => surgeRun (onJoin s t) rest
  | s, .tick now :: rest =>
    let sn := surge_check s now
    let out := surgeRun sn.1 rest
    (out.1, sn.2.toList ++ out.2)

/-- Strict alternation of surge notifications: starting from mode `m`, the
notification list toggles the mode step by step and ends in mode `m2`; in
particular no transition is ever notified twice without the opposite
transition in between. -/
inductive SurgeAlt : Bool → List SurgeNotif → Bool → Prop
  | nil (m : Bool) : SurgeAlt m [] m
  | on {ns m2} : SurgeAlt true ns m2 → SurgeAlt false (.surgeOn :: ns) m2
  | off {ns m2} : SurgeAlt false ns m2 → SurgeAlt true (.surgeOff :: ns) m2

/-! ## Theorems -/

/-! ### Vector arithmetic basics -/

theorem sumSq_nonneg (l : List ℚ) : 0 ≤ sumSq l := by
  unfold sumSq
  apply List.sum_nonneg
  intro x hx
  rcases List.mem_map.1 hx with ⟨y, _, rfl⟩
  exact mul_self_nonneg y

theorem sumSq_nil : sumSq [] = 0 := rfl

theorem dotp_self (l : List ℚ) : dotp l l = sumSq l := by
  unfold dotp sumSq
  induction l with
  | nil => rfl
  | cons x xs ih => simp [List.zipWith, List.map, ih]

theorem length_eq_zero_iff_nil {α : Type} (l : List α) : l.length = 0 ↔ l = [] := by
  cases l <;> simp

/-- A vector with nonzero sum of squares compared against itself has
cosine similarity exactly 1. -/
theorem cosine_self (v : List ℚ) (hv : sumSq v ≠ 0) : cosine v v = some 1 := by
  have hvne : v ≠ [] := by
    intro h
    exact hv (h ▸ sumSq_nil)
  have hlen : ¬ (v.length = 0 ∨ v.length = 0) := by
    rw [length_eq_zero_iff_nil]
    simp [hvne]
  have hcast : ((sumSq v : ℚ) : ℝ) ≠ 0 := by exact_mod_cast hv
  have hcastnn : (0 : ℝ) ≤ ((sumSq v : ℚ) : ℝ) := by exact_mod_cast sumSq_nonneg v
  have hdenom : Real.sqrt ((sumSq v : ℚ) : ℝ) * Real.sqrt ((sumSq v : ℚ) : ℝ)
      = ((sumSq v : ℚ) : ℝ) := Real.mul_self_sqrt hcastnn
  unfold cosine
  rw [if_neg hlen]
  simp [hdenom, hcast, dotp_self, div_self hcast]

/-- Two identical Dna profiles with nonzero typing and mouse norms have
similarity exactly 1. -/
theorem dna_similarity_self (p : Dna) (ht : sumSq p.typing ≠ 0) (hm : sumSq p.mouse ≠ 0) :
    dna_similarity p p = some 1 := by
  unfold dna_similarity
  rw [cosine_self p.typing ht, cosine_self p.mouse hm]
  norm_num

/-! ### Rounding basics -/

theorem pyRound_intCast (n : ℤ) : pyRound (n : ℚ) = n := by
  unfold pyRound
  rw [Int.floor_intCast]
  norm_num

theorem pyRoundR_intCast (n : ℤ) : pyRoundR (n : ℝ) = n := by
  unfold pyRoundR
  rw [Int.floor_intCast]
  norm_num

theorem round3_one : round3 1 = 1 := by
  unfold round3
  rw [show (1 : ℝ) * 1000 = ((1000 : ℤ) : ℝ) by norm_num, pyRoundR_intCast]
  norm_num

/-! ### Structure of the accumulated score -/

theorem finalizeRisk_risk_score (s : ℚ) (rs : List String) (ms : List (String × ℝ)) (now : ℤ) :
    (finalizeRisk s rs ms now).risk_score = max 0 (min 100 (pyRound s)) := rfl

theorem finalizeRisk_bounds (s : ℚ) (rs : List String) (ms : List (String × ℝ)) (now : ℤ) :
    0 ≤ (finalizeRisk s rs ms now).risk_score ∧ (finalizeRisk s rs ms now).risk_score ≤ 100 := by
  constructor
  · exact le_max_left 0 _
  · exact max_le (by norm_num) (min_le_left _ _)

/-- The DNA loop appends its matches at the end of the accumulator and adds
`W_DNA_MATCH` once per appended match. -/
theorem dnaFold_out (cur : Dna) :
    ∀ (l : List Profile) (s : ℚ) (rs : List String) (ms : List (String × ℝ)) out,
      dnaFold cur l (s, rs, ms) = some out →
      ∃ ks : List (String × ℝ), out.2.2 = ms ++ ks ∧ out.1 = s + W_DNA_MATCH * ks.length := by
  intro l
  induction l with
  | nil =>
    intro s rs ms out h
    simp only [dnaFold] at h
    cases h
    exact ⟨[], by simp⟩
  | cons prof rest ih =>
    intro s rs ms out h
    simp only [dnaFold] at h
    rcases hsim : dna_similarity cur ⟨prof.typing, prof.mouse⟩ with _ | sim
    · rw [hsim] at h
      cases h
    · simp only [hsim] at h
      by_cases hgt : sim > 0.78
      · rw [if_pos hgt] at h
        rcases ih _ _ _ _ h with ⟨ks, hms, hs⟩
        refine ⟨(prof.discord_id, round3 sim) :: ks, ?_, ?_⟩
        · rw [hms]
          simp
        · rw [hs]
          simp only [List.length_cons]
          push_cast
          ring
      · rw [if_neg hgt] at h
        exact ih _ _ _ _ h

/-- Matches accumulated so far survive the rest of the DNA loop. -/
theorem dnaFold_mono (cur : Dna) :
    ∀ (l : List Profile) (s : ℚ) (rs : List String) (ms : List (String × ℝ)) out x,
      dnaFold cur l (s, rs, ms) = some out → x ∈ ms → x ∈ out.2.2 := by
  intro l s rs ms out x h hx
  rcases dnaFold_out cur l s rs ms out h with ⟨ks, hms, _⟩
  rw [hms]
  exact List.mem_append_left _ hx

/-- A known profile whose similarity against the current profile exceeds
the 0.78 threshold contributes a dna_matches entry. -/
theorem dnaFold_mem (cur : Dna) :
    ∀ (l : List Profile) (prof : Profile) (sim : ℝ) (s : ℚ) (rs : List String)
      (ms : List (String × ℝ)) out,
      prof ∈ l →
      dna_similarity cur ⟨prof.typing, prof.mouse⟩ = some sim →
      sim > 0.78 →
      dnaFold cur l (s, rs, ms) = some out →
      (prof.discord_id, round3 sim) ∈ out.2.2 := by
  intro l
  induction l with
  | nil =>
    intro prof sim s rs ms out hmem
    cases hmem
  | cons p rest ih =>
    intro prof sim s rs ms out hmem hsim hgt h
    simp only [dnaFold] at h
    rcases List.mem_cons.1 hmem with rfl | hmem2
    · simp only [hsim] at h
      rw [if_pos hgt] at h
      exact dnaFold_mono cur rest _ _ _ _ _ h (by simp)
    · rcases hsimp : dna_similarity cur ⟨p.typing, p.mouse⟩ with _ | sim2
      · rw [hsimp] at h
        cases h
      · simp only [hsimp] at h
        by_cases hgt2 : sim2 > 0.78
        · rw [if_pos hgt2] at h
          exact ih prof sim _ _ _ _ hmem2 hsim hgt h
        · rw [if_neg hgt2] at h
          exact ih prof sim _ _ _ _ hmem2 hsim hgt h

/-! ### Evaluation lemmas for compute_risk -/

/-- Baseline evaluation: no fingerprints, no profiles, no ip_info, no
honeypot, old account, no social data, no db_stats. -/
theorem compute_riskCore_empty :
    compute_riskCore [] [] none false 9999 none none = some (0, [], []) := by
  simp [compute_riskCore, currentProfileOf, riskStatsStage, riskIpStage, riskHoneypotStage,
    riskAgeStage, riskSocialStage]

theorem compute_risk_empty (now : ℤ) :
    compute_risk [] [] none false 9999 none none now = some (finalizeRisk 0 [] [] now) := by
  unfold compute_risk
  rw [compute_riskCore_empty]
  rfl

/-! ### C1 -/

/-- C1: for every input on which computeRisk returns (i.e. the DNA loop
does not raise), the returned risk_score is an integer in [0, 100],
obtained by rounding the accumulated weighted sum and clamping it. -/
theorem C1_risk_score_bounds (fp : List FpObj) (known : List Profile) (ip : Option IpInfo)
    (hp : Bool) (age : ℤ) (soc : Option Social) (st : Option DbStats) (now : ℤ)
    (r : RiskResult) (hr : compute_risk fp known ip hp age soc st now = some r) :
    0 ≤ r.risk_score ∧ r.risk_score ≤ 100 ∧
    ∃ s : ℚ, r.risk_score = max 0 (min 100 (pyRound s)) := by
  unfold compute_risk at hr
  cases hcore : compute_riskCore fp known ip hp age soc st with
  | none => rw [hcore] at hr; cases hr
  | some x =>
    rw [hcore] at hr
    simp only [Option.map_some'] at hr
    cases hr
    exact ⟨(finalizeRisk_bounds _ _ _ _).1, (finalizeRisk_bounds _ _ _ _).2, x.1, rfl⟩

/-- Witness for C1 at a concrete input. -/
theorem C1_risk_score_bounds_witness :
    0 ≤ (finalizeRisk 0 [] [] 0).risk_score ∧ (finalizeRisk 0 [] [] 0).risk_score ≤ 100 ∧
    ∃ s : ℚ, (finalizeRisk 0 [] [] 0).risk_score = max 0 (min 100 (pyRound s)) :=
  C1_risk_score_bounds [] [] none false 9999 none none 0 (finalizeRisk 0 [] [] 0)
    (compute_risk_empty 0)

/-! ### C2 -/

/-- C2 counterexample: two calls of compute_risk with identical arguments
at different wall-clock instants differ (in `computed_at`), so the entire
returned assessment is not a function of the inputs alone. -/
theorem C2_counterexample :
    compute_risk [] [] none false 9999 none none 0 ≠
      compute_risk [] [] none false 9999 none none 1 := by
  rw [compute_risk_empty 0, compute_risk_empty 1]
  intro h
  have h2 := congrArg RiskResult.computed_at (Option.some.inj h)
  simp [finalizeRisk] at h2

/-- C2 amended: the score, the reasons (in order) and the dna_matches of
computeRisk are functions of the inputs alone; only `computed_at` depends
on the clock. -/
theorem C2_pure_components (fp : List FpObj) (known : List Profile) (ip : Option IpInfo)
    (hp : Bool) (age : ℤ) (soc : Option Social) (st : Option DbStats) (now now' : ℤ) :
    (compute_risk fp known ip hp age soc st now).map RiskResult.risk_score =
      (compute_risk fp known ip hp age soc st now').map RiskResult.risk_score ∧
    (compute_risk fp known ip hp age soc st now).map RiskResult.reasons =
      (compute_risk fp known ip hp age soc st now').map RiskResult.reasons ∧
    (compute_risk fp known ip hp age soc st now).map RiskResult.dna_matches =
      (compute_risk fp known ip hp age soc st now').map RiskResult.dna_matches := by
  unfold compute_risk
  cases compute_riskCore fp known ip hp age soc st <;> simp [finalizeRisk]

/-! ### C8 -/

/-- C8 counterexample: on nonempty vectors of different lengths with
nonzero norms, cosine does not return `dot(a,b)/(norm a * norm b)`: the
underlying `np.dot` raises a ValueError (modelled by `none`). -/
theorem C8_counterexample : cosine [1] [1, 2] = none := by
  have h1 : ((sumSq [1] : ℚ) : ℝ) = 1 := by norm_num [sumSq]
  have h2 : ((sumSq [1, 2] : ℚ) : ℝ) = 5 := by norm_num [sumSq]
  have hlen : ¬ (([1] : List ℚ).length = 0 ∨ ([1, 2] : List ℚ).length = 0) := by decide
  have hden : Real.sqrt ((sumSq [1] : ℚ) : ℝ) * Real.sqrt ((sumSq [1, 2] : ℚ) : ℝ) ≠ 0 := by
    rw [h1, h2, Real.sqrt_one]
    positivity
  unfold cosine
  rw [if_neg hlen]
  simp only
  rw [if_neg hden, if_neg (by decide : ¬ ([1] : List ℚ).length = ([1, 2] : List ℚ).length)]

/-- C8 amended: cosine returns exactly 0 when either vector is empty, and
exactly 0 when the product of the norms is 0; otherwise — on vectors of
equal length — it returns `dot(a,b)` divided by the product of the norms
(on unequal nonzero lengths the underlying np.dot raises). -/
theorem C8_cosine_cases (a b : List ℚ) :
    (a.length = 0 ∨ b.length = 0 → cosine a b = some 0) ∧
    (Real.sqrt ((sumSq a : ℚ) : ℝ) * Real.sqrt ((sumSq b : ℚ) : ℝ) = 0 → cosine a b = some 0) ∧
    (a.length ≠ 0 → b.length ≠ 0 → a.length = b.length →
      Real.sqrt ((sumSq a : ℚ) : ℝ) * Real.sqrt ((sumSq b : ℚ) : ℝ) ≠ 0 →
      cosine a b = some (((dotp a b : ℚ) : ℝ) /
        (Real.sqrt ((sumSq a : ℚ) : ℝ) * Real.sqrt ((sumSq b : ℚ) : ℝ)))) := by
  refine ⟨?_, ?_, ?_⟩
  · intro h
    unfold cosine
    rw [if_pos h]
  · intro h
    unfold cosine
    by_cases hl : a.length = 0 ∨ b.length = 0
    · rw [if_pos hl]
    · rw [if_neg hl]
      simp only
      rw [if_pos h]
  · intro ha hb hab h
    unfold cosine
    rw [if_neg (by tauto : ¬ (a.length = 0 ∨ b.length = 0))]
    simp only
    rw [if_neg h, if_pos hab]

/-- Witness for C8 at concrete inputs exercising all three cases. -/
theorem C8_cosine_cases_witness :
    cosine [] [1] = some 0 ∧
    cosine [0] [1] = some 0 ∧
    cosine [1] [2] = some (((dotp [1] [2] : ℚ) : ℝ) /
      (Real.sqrt ((sumSq [1] : ℚ) : ℝ) * Real.sqrt ((sumSq [2] : ℚ) : ℝ))) := by
  refine ⟨(C8_cosine_cases [] [1]).1 (by decide), ?_, ?_⟩
  · apply (C8_cosine_cases [0] [1]).2.1
    have h0 : ((sumSq [0] : ℚ) : ℝ) = 0 := by norm_num [sumSq]
    rw [h0, Real.sqrt_zero, zero_mul]
  · apply (C8_cosine_cases [1] [2]).2.2 (by decide) (by decide) (by decide)
    have e1 : ((sumSq [1] : ℚ) : ℝ) = 1 := by norm_num [sumSq]
    have e2 : ((sumSq [2] : ℚ) : ℝ) = 4 := by norm_num [sumSq]
    rw [e1, e2, Real.sqrt_one]
    positivity

/-! ### C3 -/

/-- A known profile above the similarity threshold yields a dna_matches
entry in the accumulation phase. -/
theorem compute_riskCore_mem_matches (row : FpObj) (rest : List FpObj) (cur : Dna)
    (prof : Profile) (known : List Profile) (sim : ℝ) (ip : Option IpInfo) (hp : Bool)
    (age : ℤ) (soc : Option Social) (st : Option DbStats)
    (x : ℚ × List String × List (String × ℝ))
    (hrow : row.dna = some cur) (hmem : prof ∈ known)
    (hsim : dna_similarity cur ⟨prof.typing, prof.mouse⟩ = some sim) (hgt : sim > 0.78)
    (hcore : compute_riskCore (row :: rest) known ip hp age soc st = some x) :
    (prof.discord_id, round3 sim) ∈ x.2.2 := by
  rcases known with _ | ⟨k0, ks⟩
  · cases hmem
  · simp only [compute_riskCore, currentProfileOf, hrow] at hcore
    split at hcore
    · cases hcore
    · rename_i s5 r5 ms heq
      cases hcore
      exact dnaFold_mem cur (k0 :: ks) prof sim _ _ _ (s5, r5, ms) hmem hsim hgt heq

/-- C3 counterexample: two profiles with identical (empty) typing and
mouse vectors have similarity 0, not 1. -/
theorem C3_counterexample : dna_similarity ⟨[], []⟩ ⟨[], []⟩ ≠ some 1 := by
  have h : dna_similarity ⟨[], []⟩ ⟨[], []⟩ = some 0 := by
    simp [dna_similarity, cosine]
  rw [h]
  intro hc
  have := Option.some.inj hc
  norm_num at this

/-- C3 amended: for profiles whose identical typing and mouse vectors each
have nonzero norm, the similarity is exactly 1, above the 0.78 threshold,
and compute_risk records a DNA match entry for any such known profile. -/
theorem C3_identical_profiles_match (cur : Dna) (prof : Profile) (row : FpObj)
    (rest : List FpObj) (known : List Profile) (ip : Option IpInfo) (hp : Bool) (age : ℤ)
    (soc : Option Social) (st : Option DbStats) (now : ℤ)
    (htyp : cur.typing = prof.typing) (hmou : cur.mouse = prof.mouse)
    (ht : sumSq cur.typing ≠ 0) (hm : sumSq cur.mouse ≠ 0)
    (hrow : row.dna = some cur) (hmem : prof ∈ known) :
    dna_similarity cur ⟨prof.typing, prof.mouse⟩ = some 1 ∧ (0.78 : ℝ) < 1 ∧
    ∀ r, compute_risk (row :: rest) known ip hp age soc st now = some r →
      (prof.discord_id, (1 : ℝ)) ∈ r.dna_matches := by
  have hsim : dna_similarity cur ⟨prof.typing, prof.mouse⟩ = some 1 := by
    rw [← htyp, ← hmou]
    exact dna_similarity_self cur ht hm
  refine ⟨hsim, by norm_num, ?_⟩
  intro r hr
  unfold compute_risk at hr
  cases hcore : compute_riskCore (row :: rest) known ip hp age soc st with
  | none => rw [hcore] at hr; cases hr
  | some x =>
    rw [hcore] at hr
    simp only [Option.map_some'] at hr
    cases hr
    have hmem2 := compute_riskCore_mem_matches row rest cur prof known 1 ip hp age soc st x
      hrow hmem hsim (by norm_num) hcore
    rw [round3_one] at hmem2
    exact hmem2

theorem dna_example_sim : dna_similarity ⟨[1], [1]⟩ ⟨[1], [1]⟩ = some 1 :=
  dna_similarity_self ⟨[1], [1]⟩ (by norm_num [sumSq]) (by norm_num [sumSq])

/-- Evaluation of the accumulation phase on a submission whose single-entry
typing and mouse vectors coincide with the one known profile. -/
theorem compute_riskCore_dna_example :
    compute_riskCore [⟨"f", "i", none, "u", false, some ⟨[1], [1]⟩, none⟩]
      [⟨"u2", [1], [1]⟩] none false 9999 none none =
      some (35, ["DNA match to " ++ "u2" ++ " sim=" ++ fmt2R 1 ++ " (+35.0)"],
        [("u2", round3 1)]) := by
  have h78 : (1 : ℝ) > 0.78 := by norm_num
  simp only [compute_riskCore, currentProfileOf]
  simp only [dnaFold, dna_example_sim]
  rw [if_pos h78]
  simp [riskStatsStage, riskIpStage, riskHoneypotStage, riskAgeStage, riskSocialStage,
    W_DNA_MATCH]

/-- Witness for C3: a concrete verified profile with vectors [1]/[1]
matched against an identical known profile yields a recorded DNA match. -/
theorem C3_witness :
    ("u2", (1 : ℝ)) ∈ (finalizeRisk 35
      ["DNA match to " ++ "u2" ++ " sim=" ++ fmt2R 1 ++ " (+35.0)"]
      [("u2", round3 1)] 0).dna_matches := by
  have hcomp : compute_risk [⟨"f", "i", none, "u", false, some ⟨[1], [1]⟩, none⟩]
      [⟨"u2", [1], [1]⟩] none false 9999 none none 0 =
      some (finalizeRisk 35
        ["DNA match to " ++ "u2" ++ " sim=" ++ fmt2R 1 ++ " (+35.0)"]
        [("u2", round3 1)] 0) := by
    unfold compute_risk
    rw [compute_riskCore_dna_example]
    rfl
  exact (C3_identical_profiles_match ⟨[1], [1]⟩ ⟨"u2", [1], [1]⟩
      ⟨"f", "i", none, "u", false, some ⟨[1], [1]⟩, none⟩ [] [⟨"u2", [1], [1]⟩]
      none false 9999 none none 0 rfl rfl (by norm_num [sumSq]) (by norm_num [sumSq]) rfl
      (by simp)).2.2 _ hcomp

/-! ### C4 -/

/-- C4 counterexample: a stored token with used=false and expires_at = 0 —
an epoch second in the past of now = 5 — passes validation with ok=true
instead of failing with the Expired reason: 0 is falsy in the Python guard
`if expires_at and ts > expires_at`. -/
theorem C4_counterexample :
    (⟨"t", "u", "pending", false, 0, some 0⟩ : Verification).used = false ∧
    (0 : ℤ) < 5 ∧
    check_token_valid (some ⟨"t", "u", "pending", false, 0, some 0⟩) 5 = (true, "") := by
  refine ⟨rfl, by norm_num, rfl⟩

/-- C4 amended: validation precedence of web.check_token_valid — an absent
token fails with the NotFound reason; used=true fails with AlreadyUsed
regardless of expiry; used=false with a *nonzero* expiry in the past fails
with Expired (the nonzero proviso is forced by Python truthiness, which
treats a 0 expiry as never-expiring). -/
theorem C4_validate_precedence (v : Verification) (now : ℤ) :
    check_token_valid none now = (false, "token not found") ∧
    (v.used = true → check_token_valid (some v) now = (false, "token already used")) ∧
    (∀ e : ℤ, v.used = false → v.expires_at = some e → e ≠ 0 → e < now →
      check_token_valid (some v) now = (false, "token expired")) := by
  refine ⟨rfl, ?_, ?_⟩
  · intro hu
    simp [check_token_valid, hu]
  · intro e hu he hne hlt
    simp only [check_token_valid, hu, he, Bool.false_eq_true, if_false]
    rw [if_pos ⟨hne, hlt⟩]

/-- Witness for C4: concrete lookups hitting each precedence case,
including a token that is both used and expired (AlreadyUsed wins). -/
theorem C4_validate_precedence_witness :
    check_token_valid none 5 = (false, "token not found") ∧
    check_token_valid (some ⟨"t", "u", "pending", true, 0, some 1⟩) 5 =
      (false, "token already used") ∧
    check_token_valid (some ⟨"t2", "u", "pending", false, 0, some 1⟩) 5 =
      (false, "token expired") := by
  have h1 := C4_validate_precedence ⟨"t", "u", "pending", true, 0, some 1⟩ 5
  have h2 := C4_validate_precedence ⟨"t2", "u", "pending", false, 0, some 1⟩ 5
  exact ⟨h1.1, h1.2.1 rfl, h2.2.2 1 rfl rfl (by norm_num) (by norm_num)⟩

/-! ### C5 -/

/-- C5: with db_stats (same_ip=0, same_fp=2, bans=0), all IP flags false
and proxy score 0, no honeypot, account age at least 7 days and no DNA
matches, compute_risk scores exactly 50 = 25 × min(3,2); 50 is below the
default quarantine threshold 60, so the decision step takes the verified
path (it emits the setStatus token verified effect). -/
theorem C5_duplicate_fp_score (fp_rows : List FpObj) (known : List Profile)
    (asn : Option String) (age : ℤ) (now : ℤ) (r : RiskResult)
    (hage : 7 ≤ age)
    (hr : compute_risk fp_rows known (some ⟨false, false, false, 0, asn⟩) false age none
      (some ⟨0, 2, 0⟩) now = some r)
    (hnom : r.dna_matches = []) :
    r.risk_score = 50 ∧ r.risk_score < QUARANTINE_THRESHOLD ∧
    ∀ (g : Guild) (m : Member) (token : String) (now' : ℤ),
      Effect.setStatus token "verified" ∈
        decisionEffects defaultCfg g m token r.risk_score r.reasons fp_rows known now' := by
  have hstage :
      riskAgeStage
        (riskHoneypotStage
          (riskIpStage (riskStatsStage (some ⟨0, 2, 0⟩)) (some ⟨false, false, false, 0, asn⟩))
          false) age =
        riskStatsStage (some ⟨0, 2, 0⟩) := by
    simp [riskIpStage, riskHoneypotStage, riskAgeStage,
      show ¬ (age < 1) by omega, show ¬ (age < 7) by omega]
  have hs1 : (riskStatsStage (some ⟨0, 2, 0⟩)).1 = 50 := by
    norm_num [riskStatsStage, W_DUP_FP]
  have hscore : r.risk_score = 50 := by
    unfold compute_risk at hr
    cases hcore : compute_riskCore fp_rows known (some ⟨false, false, false, 0, asn⟩) false age
        none (some ⟨0, 2, 0⟩) with
    | none => rw [hcore] at hr; cases hr
    | some x =>
      rw [hcore] at hr
      simp only [Option.map_some'] at hr
      cases hr
      simp only [compute_riskCore, hstage] at hcore
      have hx1 : x.1 = 50 := by
        split at hcore
        · cases hcore
        · rename_i s5 r5 ms heq
          split at heq
          · rename_i cur l0 ls heq2
            cases hcore
            rcases dnaFold_out cur _ _ _ _ _ heq with ⟨ks, hms, hsc⟩
            have hks : ks = [] := by
              have : ms = [] := hnom
              simp [this] at hms
              exact hms
            simp [hks] at hsc
            simpa [riskSocialStage, hs1] using hsc
          · rename_i hno
            cases heq
            cases hcore
            simpa [riskSocialStage] using hs1
      have h50 : pyRound 50 = 50 := by
        rw [show (50 : ℚ) = ((50 : ℤ) : ℚ) by norm_num]
        exact pyRound_intCast 50
      have : (finalizeRisk x.1 x.2.1 x.2.2 now).risk_score = 50 := by
        rw [finalizeRisk_risk_score, hx1, h50]
        omega
      exact this
  refine ⟨hscore, ?_, ?_⟩
  · rw [hscore]
    norm_num [QUARANTINE_THRESHOLD]
  · intro g m token now'
    rw [hscore]
    simp [decisionEffects, defaultCfg, QUARANTINE_THRESHOLD, QUARANTINE_HOURS]

/-- Evaluation of the accumulation phase on the concrete C5 scenario. -/
theorem compute_riskCore_c5_example :
    compute_riskCore [] [] (some ⟨false, false, false, 0, none⟩) false 9999 none
      (some ⟨0, 2, 0⟩) =
      some ((riskStatsStage (some ⟨0, 2, 0⟩)).1, (riskStatsStage (some ⟨0, 2, 0⟩)).2, []) := by
  simp [compute_riskCore, currentProfileOf, riskIpStage, riskHoneypotStage, riskAgeStage,
    riskSocialStage]

/-- Witness for C5 at a concrete input. -/
theorem C5_witness :
    (finalizeRisk (riskStatsStage (some ⟨0, 2, 0⟩)).1 (riskStatsStage (some ⟨0, 2, 0⟩)).2
        [] 0).risk_score = 50 ∧
    (finalizeRisk (riskStatsStage (some ⟨0, 2, 0⟩)).1 (riskStatsStage (some ⟨0, 2, 0⟩)).2
        [] 0).risk_score < QUARANTINE_THRESHOLD ∧
    Effect.setStatus "tok" "verified" ∈
      decisionEffects defaultCfg ⟨none, true, true⟩ ⟨"u", 9999⟩ "tok"
        (finalizeRisk (riskStatsStage (some ⟨0, 2, 0⟩)).1 (riskStatsStage (some ⟨0, 2, 0⟩)).2
          [] 0).risk_score
        (finalizeRisk (riskStatsStage (some ⟨0, 2, 0⟩)).1 (riskStatsStage (some ⟨0, 2, 0⟩)).2
          [] 0).reasons [] [] 0 := by
  have hr : compute_risk [] [] (some ⟨false, false, false, 0, none⟩) false 9999 none
      (some ⟨0, 2, 0⟩) 0 =
      some (finalizeRisk (riskStatsStage (some ⟨0, 2, 0⟩)).1 (riskStatsStage (some ⟨0, 2, 0⟩)).2
        [] 0) := by
    unfold compute_risk
    rw [compute_riskCore_c5_example]
    rfl
  have h := C5_duplicate_fp_score [] [] none 9999 0 _ (by norm_num) hr rfl
  exact ⟨h.1, h.2.1, h.2.2 ⟨none, true, true⟩ ⟨"u", 9999⟩ "tok" 0⟩

/-! ### Store lemmas for the decision processor -/

theorem find?_token_map (l : List Verification) (t : String) (f : Verification → Verification)
    (hf : ∀ v, (f v).token = v.token) :
    (l.map f).find? (fun v => v.token == t) = (l.find? (fun v => v.token == t)).map f := by
  induction l with
  | nil => rfl
  | cons a l ih =>
    simp only [List.map_cons, List.find?, hf a]
    cases h : (a.token == t) with
    | false => simpa using ih
    | true => rfl

theorem get_verification_token_eq (db : Db) (t : String) (v : Verification)
    (hv : get_verification db t = some v) : v.token = t := by
  have h := List.find?_some hv
  simpa using h

/-- Replaying one effect never loses the token row, never changes its
token, discord_id or expiry, never resets `used`, and only a setStatus on
this very token can change its status. -/
theorem get_verification_applyEffect (db : Db) (t : String) (v : Verification) (e : Effect)
    (hv : get_verification db t = some v) :
    ∃ v', get_verification (applyEffect db e) t = some v' ∧
      v'.token = v.token ∧ v'.discord_id = v.discord_id ∧ v'.expires_at = v.expires_at ∧
      (v.used = true → v'.used = true) ∧
      ((∀ s, e ≠ Effect.setStatus t s) → v'.status = v.status) := by
  cases e with
  | markTokenUsed t' =>
    refine ⟨if v.token == t' then { v with used := true } else v, ?_, ?_, ?_, ?_, ?_, ?_⟩
    · show (db.verifications.map _).find? _ = _
      rw [find?_token_map _ _ _ (fun w => by by_cases h : (w.token == t') = true <;> simp [h])]
      rw [show db.verifications.find? (fun v => v.token == t) = some v from hv]
      rfl
    all_goals by_cases h : (v.token == t') = true <;> simp [h]
  | setStatus t' s' =>
    refine ⟨if v.token == t' then { v with status := s' } else v, ?_, ?_, ?_, ?_, ?_, ?_⟩
    · show (db.verifications.map _).find? _ = _
      rw [find?_token_map _ _ _ (fun w => by by_cases h : (w.token == t') = true <;> simp [h])]
      rw [show db.verifications.find? (fun v => v.token == t) = some v from hv]
      rfl
    · by_cases h : (v.token == t') = true <;> simp [h]
    · by_cases h : (v.token == t') = true <;> simp [h]
    · by_cases h : (v.token == t') = true <;> simp [h]
    · by_cases h : (v.token == t') = true <;> simp [h]
    · intro hne
      by_cases h : (v.token == t') = true
      · exfalso
        have ht' : v.token = t' := by simpa using h
        have ht : v.token = t := get_verification_token_eq db t v hv
        exact hne s' (by rw [← ht', ht])
      · simp [h]
  | addAction id a r => exact ⟨v, hv, rfl, rfl, rfl, fun hu => hu, fun _ => rfl⟩
  | insertQuarantine id ts => exact ⟨v, hv, rfl, rfl, rfl, fun hu => hu, fun _ => rfl⟩
  | saveDnaProfile id ty mo => exact ⟨v, hv, rfl, rfl, rfl, fun hu => hu, fun _ => rfl⟩
  | addRole id ro => exact ⟨v, hv, rfl, rfl, rfl, fun hu => hu, fun _ => rfl⟩
  | banMember id => exact ⟨v, hv, rfl, rfl, rfl, fun hu => hu, fun _ => rfl⟩
  | modLog tx => exact ⟨v, hv, rfl, rfl, rfl, fun hu => hu, fun _ => rfl⟩

/-- Replaying a whole trace: the token row survives with its identity and
expiry; `used` is never reset; the status survives when the trace contains
no setStatus for this token. -/
theorem get_verification_applyTrace (es : List Effect) :
    ∀ (db : Db) (t : String) (v : Verification), get_verification db t = some v →
    ∃ v', get_verification (applyTrace db es) t = some v' ∧
      v'.token = v.token ∧ v'.discord_id = v.discord_id ∧ v'.expires_at = v.expires_at ∧
      (v.used = true → v'.used = true) ∧
      ((∀ s, Effect.setStatus t s ∉ es) → v'.status = v.status) := by
  induction es with
  | nil => intro db t v hv; exact ⟨v, hv, rfl, rfl, rfl, fun hu => hu, fun _ => rfl⟩
  | cons e es ih =>
    intro db t v hv
    rcases get_verification_applyEffect db t v e hv with ⟨v1, h1, htok, hdid, hexp, hused, hstat⟩
    rcases ih (applyEffect db e) t v1 h1 with ⟨v', h2, htok2, hdid2, hexp2, hused2, hstat2⟩
    refine ⟨v', h2, htok2.trans htok, hdid2.trans hdid, hexp2.trans hexp,
      fun hu => hused2 (hused hu), ?_⟩
    intro hnotin
    have hrest : ∀ s, Effect.setStatus t s ∉ es :=
      fun s hmem => hnotin s (List.mem_cons_of_mem _ hmem)
    have hhead : ∀ s, e ≠ Effect.setStatus t s :=
      fun s hh => hnotin s (by rw [hh]; exact List.mem_cons_self _ _)
    exact (hstat2 hrest).trans (hstat hhead)

/-- Marking the looked-up token sets its used flag. -/
theorem get_verification_mark (db : Db) (t : String) (v : Verification)
    (hv : get_verification db t = some v) :
    get_verification (applyEffect db (Effect.markTokenUsed t)) t =
      some { v with used := true } := by
  show (db.verifications.map _).find? _ = _
  rw [find?_token_map _ _ _ (fun w => by by_cases h : (w.token == t) = true <;> simp [h])]
  rw [show db.verifications.find? (fun v => v.token == t) = some v from hv, Option.map_some']
  have h : (v.token == t) = true := by simp [get_verification_token_eq db t v hv]
  rw [if_pos h]

theorem quarantined_applyEffect_mono (db : Db) (e : Effect) (x : String × ℤ)
    (hx : x ∈ db.quarantined) : x ∈ (applyEffect db e).quarantined := by
  cases e <;> simp [applyEffect, hx]

theorem quarantined_applyTrace_mono (es : List Effect) :
    ∀ (db : Db) (x : String × ℤ), x ∈ db.quarantined → x ∈ (applyTrace db es).quarantined := by
  induction es with
  | nil => intro db x hx; exact hx
  | cons e es ih => intro db x hx; exact ih _ _ (quarantined_applyEffect_mono db e x hx)

theorem quarantined_applyTrace_mem (es : List Effect) :
    ∀ (db : Db) (id : String) (ts : ℤ), Effect.insertQuarantine id ts ∈ es →
      (id, ts) ∈ (applyTrace db es).quarantined := by
  induction es with
  | nil => intro db id ts h; cases h
  | cons e es ih =>
    intro db id ts h
    rcases List.mem_cons.1 h with rfl | h2
    · exact quarantined_applyTrace_mono es _ _ (by simp [applyEffect])
    · exact ih _ _ _ h2

theorem actions_applyEffect_mono (db : Db) (e : Effect) (x : ActionRow)
    (hx : x ∈ db.actions) : x ∈ (applyEffect db e).actions := by
  cases e <;> simp [applyEffect, hx]

theorem actions_applyTrace_mono (es : List Effect) :
    ∀ (db : Db) (x : ActionRow), x ∈ db.actions → x ∈ (applyTrace db es).actions := by
  induction es with
  | nil => intro db x hx; exact hx
  | cons e es ih => intro db x hx; exact ih _ _ (actions_applyEffect_mono db e x hx)

theorem actions_applyTrace_mem (es : List Effect) :
    ∀ (db : Db) (id a r : String), Effect.addAction id a r ∈ es →
      (⟨id, a, r⟩ : ActionRow) ∈ (applyTrace db es).actions := by
  induction es with
  | nil => intro db id a r h; cases h
  | cons e es ih =>
    intro db id a r h
    rcases List.mem_cons.1 h with rfl | h2
    · exact actions_applyTrace_mono es _ _ (by simp [applyEffect])
    · exact ih _ _ _ _ h2

/-! ### C10 -/

/-- C10 counterexample: a token whose expiresAt is set to epoch 0 — in
the past of now = 5 — and already used gets a token_reuse action, not a
token_expired one: the Python guard `if expires_at and now_ts > expires_at`
treats the 0 timestamp as falsy and skips the expiry branch. -/
theorem C10_counterexample :
    process_verification_token ⟨[⟨"tok", "u", "pending", true, 0, some 0⟩], [], [], [], []⟩
        "tok" none 5 defaultCfg =
      [Effect.addAction "u" "token_reuse" "tok"] ∧
    Effect.addAction "u" "token_expired" "tok" ∉
      process_verification_token ⟨[⟨"tok", "u", "pending", true, 0, some 0⟩], [], [], [], []⟩
        "tok" none 5 defaultCfg := by
  have hv : get_verification ⟨[⟨"tok", "u", "pending", true, 0, some 0⟩], [], [], [], []⟩
      "tok" = some ⟨"tok", "u", "pending", true, 0, some 0⟩ := rfl
  have hexp : tokenExpiredNow (⟨"tok", "u", "pending", true, 0, some 0⟩ : Verification) 5 =
      false := rfl
  constructor <;> simp [process_verification_token, hv, hexp]

/-- C10 amended: in the decision processor the expiry check precedes the
reuse check: a token with a *nonzero* expiry in the past that is also
already used gets exactly a token_expired audit action and halts;
token_reuse is never logged on this path (the nonzero proviso is forced by
Python truthiness, which treats a 0 expiry as never-expiring). -/
theorem C10_expiry_before_reuse (db : Db) (token : String) (guild : Option Guild)
    (now : ℤ) (cfg : Cfg) (v : Verification) (e : ℤ)
    (hv : get_verification db token = some v) (he : v.expires_at = some e)
    (hne : e ≠ 0) (hlt : e < now) (hused : v.used = true) :
    process_verification_token db token guild now cfg =
      [Effect.addAction v.discord_id "token_expired" token] ∧
    ∀ id r, Effect.addAction id "token_reuse" r ∉
      process_verification_token db token guild now cfg := by
  have hexp : tokenExpiredNow v now = true := by
    simp only [tokenExpiredNow, he]
    rw [if_pos ⟨hne, hlt⟩]
  constructor
  · simp [process_verification_token, hv, hexp]
  · intro id r
    simp [process_verification_token, hv, hexp]

/-- Witness for C10: a concrete used and (nonzero) expired token. -/
theorem C10_expiry_before_reuse_witness :
    process_verification_token ⟨[⟨"tk", "u", "pending", true, 0, some 1⟩], [], [], [], []⟩
        "tk" none 100 defaultCfg =
      [Effect.addAction "u" "token_expired" "tk"] ∧
    Effect.addAction "u" "token_reuse" "tk" ∉
      process_verification_token ⟨[⟨"tk", "u", "pending", true, 0, some 1⟩], [], [], [], []⟩
        "tk" none 100 defaultCfg := by
  have h := C10_expiry_before_reuse ⟨[⟨"tk", "u", "pending", true, 0, some 1⟩], [], [], [], []⟩
    "tk" none 100 defaultCfg ⟨"tk", "u", "pending", true, 0, some 1⟩ 1 rfl rfl
    (by norm_num) (by norm_num) rfl
  exact ⟨h.1, h.2 "u" "tk"⟩

/-! ### C6 -/

/-- C6 counterexample: once used, a token whose (nonzero) expiry has also
passed is re-notified as token_expired, not token_reuse, because the
expiry check runs first. -/
theorem C6_counterexample :
    process_verification_token ⟨[⟨"tok", "u", "pending", true, 0, some 1⟩], [], [], [], []⟩
        "tok" none 100 defaultCfg =
      [Effect.addAction "u" "token_expired" "tok"] ∧
    Effect.addAction "u" "token_reuse" "tok" ∉
      process_verification_token ⟨[⟨"tok", "u", "pending", true, 0, some 1⟩], [], [], [], []⟩
        "tok" none 100 defaultCfg := by
  have hv : get_verification ⟨[⟨"tok", "u", "pending", true, 0, some 1⟩], [], [], [], []⟩
      "tok" = some ⟨"tok", "u", "pending", true, 0, some 1⟩ := rfl
  have hexp : tokenExpiredNow (⟨"tok", "u", "pending", true, 0, some 1⟩ : Verification) 100 =
      true := rfl
  constructor
  · simp [process_verification_token, hv, hexp]
  · simp [process_verification_token, hv, hexp]

/-- C6 amended: on a valid token the processor emits markTokenUsed as the
very first effect — before any decision side effect — and after the trace
is applied to the store, any subsequent processing attempt for the token
halts with a single token_reuse audit action (or token_expired, when the
token has meanwhile expired), so the token is decisioned at most once. -/
theorem C6_consume_then_at_most_once (db : Db) (token : String) (guild : Option Guild)
    (now : ℤ) (cfg : Cfg) (v : Verification)
    (hv : get_verification db token = some v)
    (hexp : tokenExpiredNow v now = false)
    (hused : v.used = false) :
    (process_verification_token db token guild now cfg = [] ∨
      ∃ rest, process_verification_token db token guild now cfg =
        Effect.markTokenUsed token :: rest) ∧
    ∀ rest, process_verification_token db token guild now cfg =
        Effect.markTokenUsed token :: rest →
      ∀ (guild' : Option Guild) (now' : ℤ) (cfg' : Cfg),
        process_verification_token
            (applyTrace db (process_verification_token db token guild now cfg))
            token guild' now' cfg' =
          [Effect.addAction v.discord_id "token_reuse" token] ∨
        process_verification_token
            (applyTrace db (process_verification_token db token guild now cfg))
            token guild' now' cfg' =
          [Effect.addAction v.discord_id "token_expired" token] := by
  constructor
  · simp only [process_verification_token, hv, hexp, hused, Bool.false_eq_true, if_false]
    cases guild with
    | none => exact Or.inl rfl
    | some g =>
      cases hpr : processRisk db token g now with
      | none => exact Or.inl (by simp [hpr])
      | some risk =>
        right
        exact ⟨(match g.member with
          | none =>
            [Effect.addAction v.discord_id "verify_no_member"
               ("token=" ++ token ++ ";score=" ++ toString risk.risk_score),
             Effect.modLog ("member not found for " ++ v.discord_id)]
          | some m => decisionEffects cfg g m token risk.risk_score risk.reasons
              (fpObjsOf db token) db.profiles now), by simp [hpr]⟩
  · intro rest hT guild' now' cfg'
    rw [hT]
    have h1 := get_verification_mark db token v hv
    rcases get_verification_applyTrace rest (applyEffect db (Effect.markTokenUsed token)) token
        { v with used := true } h1 with ⟨v', h2, _, hdid, _, husedm, _⟩
    have hu' : v'.used = true := husedm rfl
    have h2' : get_verification
        (applyTrace db (Effect.markTokenUsed token :: rest)) token = some v' := h2
    cases he2 : tokenExpiredNow v' now' with
    | true =>
      right
      simp [process_verification_token, h2', he2, hdid]
    | false =>
      left
      simp [process_verification_token, h2', he2, hu', hdid]

/-! ### C9 -/

/-- C9: on the quarantine path (score at or above the threshold) the
processor never updates the token status: the trace contains no setStatus
effect, the stored status is unchanged after replay, while a quarantine
record and a quarantine_auto audit action are written; only the
below-threshold path emits setStatus token verified. -/
theorem C9_quarantine_frame (db : Db) (token : String) (g : Guild) (m : Member)
    (now : ℤ) (cfg : Cfg) (v : Verification) (risk : RiskResult)
    (hv : get_verification db token = some v)
    (hexp : tokenExpiredNow v now = false)
    (hused : v.used = false)
    (hm : g.member = some m)
    (hrisk : processRisk db token g now = some risk) :
    (cfg.threshold ≤ risk.risk_score →
      (∀ t s, Effect.setStatus t s ∉
        process_verification_token db token (some g) now cfg) ∧
      (∃ v', get_verification
          (applyTrace db (process_verification_token db token (some g) now cfg)) token =
          some v' ∧ v'.status = v.status) ∧
      (m.id, now + cfg.hours * 3600) ∈
        (applyTrace db (process_verification_token db token (some g) now cfg)).quarantined ∧
      (∃ rs, (⟨m.id, "quarantine_auto", rs⟩ : ActionRow) ∈
        (applyTrace db (process_verification_token db token (some g) now cfg)).actions)) ∧
    (risk.risk_score < cfg.threshold →
      Effect.setStatus token "verified" ∈
        process_verification_token db token (some g) now cfg) := by
  have hT : process_verification_token db token (some g) now cfg =
      Effect.markTokenUsed token :: decisionEffects cfg g m token risk.risk_score risk.reasons
        (fpObjsOf db token) db.profiles now := by
    simp [process_verification_token, hv, hexp, hused, hrisk, hm]
  constructor
  · intro hthr
    have hnostat : ∀ t s, Effect.setStatus t s ∉
        process_verification_token db token (some g) now cfg := by
      intro t s
      rw [hT]
      by_cases h1 : g.qrole <;> by_cases h2 : cfg.auto_ban ∧ 95 ≤ risk.risk_score <;>
        simp [decisionEffects, if_pos hthr, h1, h2]
    refine ⟨hnostat, ?_, ?_, ?_⟩
    · rcases get_verification_applyTrace
          (process_verification_token db token (some g) now cfg) db token v hv
        with ⟨v', h2, _, _, _, _, hstat⟩
      exact ⟨v', h2, hstat (fun s => hnostat token s)⟩
    · apply quarantined_applyTrace_mem
      rw [hT]
      by_cases h1 : g.qrole <;> simp [decisionEffects, if_pos hthr, h1]
    · refine ⟨"score=" ++ toString risk.risk_score ++ ";reasons=" ++ toString risk.reasons, ?_⟩
      apply actions_applyTrace_mem
      rw [hT]
      by_cases h1 : g.qrole <;> simp [decisionEffects, if_pos hthr, h1]
  · intro hlt
    rw [hT]
    simp [decisionEffects, if_neg (not_le.mpr hlt)]

/-! ### Concrete evaluations for the C6 and C9 witnesses -/

theorem compute_riskCore_c6_example :
    compute_riskCore [] [] (some neutralIpInfo) false (max 0 9999) none (some ⟨0, 0, 0⟩) =
      some (0, [], []) := by
  simp [compute_riskCore, currentProfileOf, riskStatsStage, riskIpStage, riskHoneypotStage,
    riskAgeStage, riskSocialStage, neutralIpInfo,
    show ¬ ((max 0 9999 : ℤ) < 1) by omega, show ¬ ((max 0 9999 : ℤ) < 7) by omega]

theorem processRisk_c6_example :
    processRisk ⟨[⟨"tok", "u", "pending", false, 0, none⟩], [], [], [], []⟩ "tok"
      ⟨some ⟨"u", 9999⟩, true, true⟩ 0 = some (finalizeRisk 0 [] [] 0) := by
  have hfp : fpObjsOf ⟨[⟨"tok", "u", "pending", false, 0, none⟩], [], [], [], []⟩ "tok" =
      [] := rfl
  simp only [processRisk, hfp, dbStatsOf, List.any_nil]
  unfold compute_risk
  rw [compute_riskCore_c6_example]
  rfl

theorem process_c6_first_run :
    process_verification_token ⟨[⟨"tok", "u", "pending", false, 0, none⟩], [], [], [], []⟩
        "tok" (some ⟨some ⟨"u", 9999⟩, true, true⟩) 0 defaultCfg =
      Effect.markTokenUsed "tok" ::
        decisionEffects defaultCfg ⟨some ⟨"u", 9999⟩, true, true⟩ ⟨"u", 9999⟩ "tok"
          (finalizeRisk 0 [] [] 0).risk_score (finalizeRisk 0 [] [] 0).reasons [] [] 0 := by
  have hv : get_verification ⟨[⟨"tok", "u", "pending", false, 0, none⟩], [], [], [], []⟩
      "tok" = some ⟨"tok", "u", "pending", false, 0, none⟩ := rfl
  have hexp : tokenExpiredNow (⟨"tok", "u", "pending", false, 0, none⟩ : Verification) 0 =
      false := rfl
  have hfp : fpObjsOf ⟨[⟨"tok", "u", "pending", false, 0, none⟩], [], [], [], []⟩ "tok" =
      [] := rfl
  simp [process_verification_token, hv, hexp, processRisk_c6_example, hfp]

/-- Witness for C6: on a fresh token the first run consumes it, and the
replayed store rejects a second attempt with a token_reuse (or, had the
expiry passed, token_expired) audit action. -/
theorem C6_witness :
    process_verification_token
        (applyTrace ⟨[⟨"tok", "u", "pending", false, 0, none⟩], [], [], [], []⟩
          (process_verification_token
            ⟨[⟨"tok", "u", "pending", false, 0, none⟩], [], [], [], []⟩
            "tok" (some ⟨some ⟨"u", 9999⟩, true, true⟩) 0 defaultCfg))
        "tok" none 0 defaultCfg =
      [Effect.addAction "u" "token_reuse" "tok"] ∨
    process_verification_token
        (applyTrace ⟨[⟨"tok", "u", "pending", false, 0, none⟩], [], [], [], []⟩
          (process_verification_token
            ⟨[⟨"tok", "u", "pending", false, 0, none⟩], [], [], [], []⟩
            "tok" (some ⟨some ⟨"u", 9999⟩, true, true⟩) 0 defaultCfg))
        "tok" none 0 defaultCfg =
      [Effect.addAction "u" "token_expired" "tok"] :=
  (C6_consume_then_at_most_once ⟨[⟨"tok", "u", "pending", false, 0, none⟩], [], [], [], []⟩
      "tok" (some ⟨some ⟨"u", 9999⟩, true, true⟩) 0 defaultCfg
      ⟨"tok", "u", "pending", false, 0, none⟩ rfl rfl rfl).2
    _ process_c6_first_run none 0 defaultCfg

theorem compute_riskCore_c9_example :
    compute_riskCore [⟨"fv", "ip1", none, "ua", true, none, none⟩] [] (some neutralIpInfo)
      true (max 0 9999) none (some ⟨0, 0, 0⟩) =
      some (90, ["Honeypot triggered (+90.0)"], []) := by
  simp [compute_riskCore, currentProfileOf, riskStatsStage, riskIpStage, riskHoneypotStage,
    riskAgeStage, riskSocialStage, neutralIpInfo, W_HONEYPOT,
    show ¬ ((max 0 9999 : ℤ) < 1) by omega, show ¬ ((max 0 9999 : ℤ) < 7) by omega]

theorem processRisk_c9_example :
    processRisk ⟨[⟨"tok", "u", "pending", false, 0, none⟩],
        [⟨"tok", "fpst", ⟨"fv", none, none⟩, "ip1", "", "ua", true, 0⟩], [], [], []⟩ "tok"
      ⟨some ⟨"u", 9999⟩, true, true⟩ 0 =
      some (finalizeRisk 90 ["Honeypot triggered (+90.0)"] [] 0) := by
  have hfp : fpObjsOf ⟨[⟨"tok", "u", "pending", false, 0, none⟩],
      [⟨"tok", "fpst", ⟨"fv", none, none⟩, "ip1", "", "ua", true, 0⟩], [], [], []⟩ "tok" =
      [⟨"fv", "ip1", none, "ua", true, none, none⟩] := rfl
  have hst : dbStatsOf ⟨[⟨"tok", "u", "pending", false, 0, none⟩],
      [⟨"tok", "fpst", ⟨"fv", none, none⟩, "ip1", "", "ua", true, 0⟩], [], [], []⟩ "tok"
      [⟨"fv", "ip1", none, "ua", true, none, none⟩] = ⟨0, 0, 0⟩ := rfl
  simp only [processRisk, hfp, hst, List.any_cons, List.any_nil]
  unfold compute_risk
  simp only [Bool.or_false]
  rw [compute_riskCore_c9_example]
  rfl

/-- Witness for C9: a honeypot-triggering submission (score 90 ≥ 60) is
quarantined while the token status stays pending. -/
theorem C9_witness :
    (Effect.setStatus "tok" "verified" ∉
      process_verification_token ⟨[⟨"tok", "u", "pending", false, 0, none⟩],
          [⟨"tok", "fpst", ⟨"fv", none, none⟩, "ip1", "", "ua", true, 0⟩], [], [], []⟩
        "tok" (some ⟨some ⟨"u", 9999⟩, true, true⟩) 0 defaultCfg) ∧
    (∃ v', get_verification
        (applyTrace ⟨[⟨"tok", "u", "pending", false, 0, none⟩],
            [⟨"tok", "fpst", ⟨"fv", none, none⟩, "ip1", "", "ua", true, 0⟩], [], [], []⟩
          (process_verification_token ⟨[⟨"tok", "u", "pending", false, 0, none⟩],
              [⟨"tok", "fpst", ⟨"fv", none, none⟩, "ip1", "", "ua", true, 0⟩], [], [], []⟩
            "tok" (some ⟨some ⟨"u", 9999⟩, true, true⟩) 0 defaultCfg)) "tok" =
        some v' ∧ v'.status = "pending") ∧
    ("u", 0 + defaultCfg.hours * 3600) ∈
      (applyTrace ⟨[⟨"tok", "u", "pending", false, 0, none⟩],
          [⟨"tok", "fpst", ⟨"fv", none, none⟩, "ip1", "", "ua", true, 0⟩], [], [], []⟩
        (process_verification_token ⟨[⟨"tok", "u", "pending", false, 0, none⟩],
            [⟨"tok", "fpst", ⟨"fv", none, none⟩, "ip1", "", "ua", true, 0⟩], [], [], []⟩
          "tok" (some ⟨some ⟨"u", 9999⟩, true, true⟩) 0 defaultCfg)).quarantined ∧
    (∃ rs, (⟨"u", "quarantine_auto", rs⟩ : ActionRow) ∈
      (applyTrace ⟨[⟨"tok", "u", "pending", false, 0, none⟩],
          [⟨"tok", "fpst", ⟨"fv", none, none⟩, "ip1", "", "ua", true, 0⟩], [], [], []⟩
        (process_verification_token ⟨[⟨"tok", "u", "pending", false, 0, none⟩],
            [⟨"tok", "fpst", ⟨"fv", none, none⟩, "ip1", "", "ua", true, 0⟩], [], [], []⟩
          "tok" (some ⟨some ⟨"u", 9999⟩, true, true⟩) 0 defaultCfg)).actions) := by
  have hthr : defaultCfg.threshold ≤
      (finalizeRisk 90 ["Honeypot triggered (+90.0)"] [] 0).risk_score := by
    rw [finalizeRisk_risk_score, show (90 : ℚ) = ((90 : ℤ) : ℚ) by norm_num, pyRound_intCast]
    simp only [defaultCfg, QUARANTINE_THRESHOLD]
    omega
  have h := (C9_quarantine_frame ⟨[⟨"tok", "u", "pending", false, 0, none⟩],
      [⟨"tok", "fpst", ⟨"fv", none, none⟩, "ip1", "", "ua", true, 0⟩], [], [], []⟩ "tok"
      ⟨some ⟨"u", 9999⟩, true, true⟩ ⟨"u", 9999⟩ 0 defaultCfg
      ⟨"tok", "u", "pending", false, 0, none⟩
      (finalizeRisk 90 ["Honeypot triggered (+90.0)"] [] 0)
      rfl rfl rfl rfl processRisk_c9_example).1 hthr
  exact ⟨h.1 "tok" "verified", h.2.1, h.2.2.1, h.2.2.2⟩

/-! ### C7 -/

/-- Trichotomy of one surge_check tick: enter surge mode, leave it, or do
nothing, each with the exact guard from the code. -/
theorem surge_check_spec (s : SurgeState) (now : ℚ) :
    (3 ≤ (evictJoins now s.recent_joins).length ∧ s.surge_mode = false ∧
      surge_check s now =
        (⟨evictJoins now s.recent_joins, true⟩, some SurgeNotif.surgeOn)) ∨
    (¬ (3 ≤ (evictJoins now s.recent_joins).length ∧ s.surge_mode = false) ∧
      (evictJoins now s.recent_joins).length = 0 ∧ s.surge_mode = true ∧
      surge_check s now =
        (⟨evictJoins now s.recent_joins, false⟩, some SurgeNotif.surgeOff)) ∨
    (¬ (3 ≤ (evictJoins now s.recent_joins).length ∧ s.surge_mode = false) ∧
      ¬ ((evictJoins now s.recent_joins).length = 0 ∧ s.surge_mode = true) ∧
      surge_check s now = (⟨evictJoins now s.recent_joins, s.surge_mode⟩, none)) := by
  simp only [surge_check]
  by_cases h1 : 3 ≤ (evictJoins now s.recent_joins).length ∧ s.surge_mode = false
  · exact Or.inl ⟨h1.1, h1.2, by rw [if_pos h1]⟩
  · by_cases h2 : (evictJoins now s.recent_joins).length = 0 ∧ s.surge_mode = true
    · exact Or.inr (Or.inl ⟨h1, h2.1, h2.2, by rw [if_neg h1, if_pos h2]⟩)
    · exact Or.inr (Or.inr ⟨h1, h2, by rw [if_neg h1, if_neg h2]⟩)

/-- Over any event run the emitted notifications strictly alternate,
starting against the initial mode and ending at the final mode. -/
theorem surgeRun_alt (evs : List SurgeEvent) : ∀ s : SurgeState,
    SurgeAlt s.surge_mode (surgeRun s evs).2 (surgeRun s evs).1.surge_mode := by
  induction evs with
  | nil => intro s; exact SurgeAlt.nil _
  | cons e evs ih =>
    intro s
    cases e with
    | join t =>
      have h := ih (onJoin s t)
      simpa [surgeRun, onJoin] using h
    | tick now =>
      rcases surge_check_spec s now with ⟨_, h2, heq⟩ | ⟨_, _, h3, heq⟩ | ⟨_, _, heq⟩
      · simp only [surgeRun, heq]
        rw [h2]
        exact SurgeAlt.on (ih ⟨evictJoins now s.recent_joins, true⟩)
      · simp only [surgeRun, heq]
        rw [h3]
        exact SurgeAlt.off (ih ⟨evictJoins now s.recent_joins, false⟩)
      · simp only [surgeRun, heq, Option.toList_none, List.nil_append]
        exact ih ⟨evictJoins now s.recent_joins, s.surge_mode⟩

/-- C7: the surge detector is an exactly-once hysteresis.  A tick notifies
the false→true transition iff the evicted window holds at least 3 joins
while surge mode is off (and then turns it on); it notifies the
true→false transition iff the window is empty while surge mode is on (and
then turns it off); otherwise the mode is unchanged and nothing is
notified; joins never notify; and over any run the notification sequence
strictly alternates, so no transition is notified twice without the
opposite transition in between. -/
theorem C7_surge_hysteresis (s : SurgeState) (now : ℚ) :
    ((surge_check s now).2 = some SurgeNotif.surgeOn ↔
      3 ≤ (evictJoins now s.recent_joins).length ∧ s.surge_mode = false) ∧
    ((surge_check s now).2 = some SurgeNotif.surgeOff ↔
      (evictJoins now s.recent_joins).length = 0 ∧ s.surge_mode = true) ∧
    ((surge_check s now).2 = some SurgeNotif.surgeOn →
      (surge_check s now).1.surge_mode = true) ∧
    ((surge_check s now).2 = some SurgeNotif.surgeOff →
      (surge_check s now).1.surge_mode = false) ∧
    ((surge_check s now).2 = none → (surge_check s now).1.surge_mode = s.surge_mode) ∧
    (∀ t, (surgeRun s [SurgeEvent.join t]).2 = []) ∧
    ∀ evs, SurgeAlt s.surge_mode (surgeRun s evs).2 (surgeRun s evs).1.surge_mode := by
  have hspec := surge_check_spec s now
  refine ⟨?_, ?_, ?_, ?_, ?_, fun t => rfl, fun evs => surgeRun_alt evs s⟩
  · rcases hspec with ⟨h1a, h1b, heq⟩ | ⟨h1, h2a, h2b, heq⟩ | ⟨h1, h2, heq⟩
    · rw [heq]; simp [h1a, h1b]
    · rw [heq]; simp [h1]
    · rw [heq]; simp [h1]
  · rcases hspec with ⟨h1a, h1b, heq⟩ | ⟨h1, h2a, h2b, heq⟩ | ⟨h1, h2, heq⟩
    · rw [heq]; simp [h1b]
    · rw [heq]; simp [h2a, h2b]
    · rw [heq]
      constructor
      · intro h; simp at h
      · intro hc; exact absurd hc h2
  · rcases hspec with ⟨h1a, h1b, heq⟩ | ⟨h1, h2a, h2b, heq⟩ | ⟨h1, h2, heq⟩
    · rw [heq]; intro _; rfl
    · rw [heq]; intro h; simp at h
    · rw [heq]; intro h; simp at h
  · rcases hspec with ⟨h1a, h1b, heq⟩ | ⟨h1, h2a, h2b, heq⟩ | ⟨h1, h2, heq⟩
    · rw [heq]; intro h; simp at h
    · rw [heq]; intro _; rfl
    · rw [heq]; intro h; simp at h
  · rcases hspec with ⟨h1a, h1b, heq⟩ | ⟨h1, h2a, h2b, heq⟩ | ⟨h1, h2, heq⟩
    · rw [heq]; intro h; simp at h
    · rw [heq]; intro h; simp at h
    · rw [heq]; intro _; rfl

/-- Witness for C7: three joins inside the window flip the mode on with
one notification; a run that then lets the window empty flips it back,
producing the alternating trace. -/
theorem C7_witness :
    (surge_check ⟨[0, 0, 0], false⟩ 1).2 = some SurgeNotif.surgeOn ∧
    (surge_check ⟨[0, 0, 0], false⟩ 1).1.surge_mode = true ∧
    SurgeAlt false
      (surgeRun ⟨[], false⟩ [SurgeEvent.join 0, SurgeEvent.join 0, SurgeEvent.join 0,
        SurgeEvent.tick 1, SurgeEvent.tick 40]).2
      (surgeRun ⟨[], false⟩ [SurgeEvent.join 0, SurgeEvent.join 0, SurgeEvent.join 0,
        SurgeEvent.tick 1, SurgeEvent.tick 40]).1.surge_mode := by
  have hev : evictJoins 1 [0, 0, 0] = [0, 0, 0] := by
    simp [evictJoins, List.dropWhile]
  have h := C7_surge_hysteresis ⟨[0, 0, 0], false⟩ 1
  have hon : (surge_check ⟨[0, 0, 0], false⟩ 1).2 = some SurgeNotif.surgeOn :=
    h.1.mpr ⟨by rw [hev]; norm_num, rfl⟩
  exact ⟨hon, h.2.2.1 hon,
    (C7_surge_hysteresis ⟨[], false⟩ 0).2.2.2.2.2.2
      [SurgeEvent.join 0, SurgeEvent.join 0, SurgeEvent.join 0,
       SurgeEvent.tick 1, SurgeEvent.tick 40]⟩

end AegisX
